import Mathlib

/-!
# tiedot `dbsvc` coordinator: `NewDBSvc`, `Sync`, `Shutdown`

A shallow embedding of `src/dbsvc/db.go`.

* A Go `string` is a Lean `String`; a Go `error` value is `Option String`
  (`none` is `nil`, `some t` is a non-nil error whose `Error()` text is `t`).
* Everything outside the file (the RPC transport, the clock, the sibling methods
  `loadSchema`, `lockAllData`, `unlockAllData`, `unloadAll`) is an oracle in `Env`.
* Every externally visible action appends one `Event` to the trace of the `World`.
* A Go function body is run statement by statement; `defer` pushes onto a stack that
  `runDeferred` unwinds last-in-first-out on return and on panic.
-/

namespace dbsvc

/-! ## Data model -/

/-- Collection => Index name => Index path. -/
abbrev Schema := List (String × List (String × List String))

/-- An open `*rpc.Client`; it remembers the rank whose endpoint
`path.Join(srvWorkingDir, strconv.Itoa(rank))` it was dialed to. -/
structure Client where
  rank : Nat
  deriving DecidableEq, Repr

/-- The struct `DBSvc`.  `data[i] = none` is a nil `*rpc.Client`;
`lockHeld` is the state of `lock *sync.Mutex`. -/
structure DBSvc where
  srvWorkingDir : String
  dataDir : String
  totalRank : Int
  data : List (Option Client)
  schema : Schema
  mySchemaVersion : Int
  lockHeld : Bool
  deriving DecidableEq, Repr

/-- Externally visible actions, in the order the program performs them. -/
inductive Event where
  /-- The call `db.lock.Lock()` acquired the mutex. -/
  | lock
  /-- The call `db.lock.Unlock()`. -/
  | unlock
  /-- The call `rpc.Dial("unix", path.Join(srvWorkingDir, strconv.Itoa(rank)))`. -/
  | dial (rank : Nat)
  /-- The call `client.Call(method, ...)` on the connection to `rank`. -/
  | call (rank : Nat) (method : String)
  /-- The call `db.loadSchema(create)`. -/
  | loadSchema (create : Bool)
  /-- The call `db.lockAllData()`. -/
  | lockAllData
  /-- The call `db.unlockAllData()`. -/
  | unlockAllData
  /-- The call `db.unloadAll()`. -/
  | unloadAll
  /-- A line written through `tdlog.Println` or `tdlog.Errorf`. -/
  | log (msg : String)
  deriving DecidableEq, Repr

/-- The world outside the file.  Each field is the outcome the corresponding external
call produces. -/
structure Env where
  /-- Value of `time.Now().UnixNano()`. -/
  now : Int
  /-- Outcome of `rpc.Dial` for the endpoint of a rank: `none` is a live connection,
  `some e` a dial error. -/
  dial : Nat → Option String
  /-- Outcome of `Call("DataSvc.SchemaVersion", true, &v)` on a rank: an error, or
  the version written to `v`. -/
  schemaVersion : Nat → Except String Int
  /-- Error value of `Call("DataSvc.Shutdown", false, discard)` on a rank; `none` is
  a completed call (ack received, `nil` error). -/
  shutdown : Nat → Option String
  /-- What `db.loadSchema(create)` does to the schema map, and the error it returns. -/
  loadSchema : Bool → Schema → Schema × Option String
  /-- What `db.lockAllData()` reports. -/
  lockAllData : Option String
  /-- What `db.unlockAllData()` reports. -/
  unlockAllData : Option String
  /-- What `db.unloadAll()` does to the schema map, and what it reports. -/
  unloadAll : Schema → Schema × Option String

/-- Program state: the coordinator and the trace of actions so far. -/
structure World where
  db : DBSvc
  trace : List Event
  deriving DecidableEq, Repr

/-- How a Go call ends: it returns a value, it panics, or it never gets past
`Lock()` because the mutex is held. -/
inductive Result (α : Type) where
  | returned (a : α)
  | panicked (msg : String)
  | blocked
  deriving DecidableEq, Repr

/-- A finished call: final world and how the call ended. -/
structure Run (α : Type) where
  world : World
  result : Result α

/-! ## Library functions used by the file -/

/-- Whether the characters `p` are the first characters of `s`. -/
def startsWithChars : List Char → List Char → Bool
  | [], _ => true
  | _ :: _, [] => false
  | a :: p, b :: s => a == b && startsWithChars p s

/-- Whether `sub` occurs in `s` at some offset. -/
def containsChars : List Char → List Char → Bool
  | [], sub => startsWithChars sub []
  | c :: s, sub => startsWithChars sub (c :: s) || containsChars s sub

/-- Go `strings.Contains(s, substr)`. -/
def stringsContains (s substr : String) : Bool :=
  containsChars s.data substr.data

/-- Go `fmt.Sprint(err)` for an `error`: `<nil>` for nil, else the `Error()` text. -/
def fmtSprint : Option String → String
  | none => "<nil>"
  | some t => t

/-- Go `strings.Join(elems, sep)`. -/
def stringsJoin (elems : List String) (sep : String) : String :=
  sep.intercalate elems

/-! ## Primitive actions -/

/-- Append an event to the trace. -/
def emit (e : Event) (w : World) : World :=
  { w with trace := w.trace ++ [e] }

/-- The call `db.lock.Lock()`: `none` when the mutex is held (the caller blocks). -/
def mutexLock (w : World) : Option World :=
  if w.db.lockHeld then none
  else some (emit .lock { w with db := { w.db with lockHeld := true } })

/-- The call `db.lock.Unlock()`. -/
def mutexUnlock (w : World) : World :=
  emit .unlock { w with db := { w.db with lockHeld := false } }

/-- Modelled from the spec: `db.lockAllData()` is not in the file; the spec gives it as
`FreezeAll() -> error`.  The call is recorded and its report handed back. -/
def lockAllData (env : Env) (w : World) : World × Option String :=
  (emit .lockAllData w, env.lockAllData)

/-- Modelled from the spec: `db.unlockAllData()` is not in the file; the spec gives it
as `UnfreezeAll() -> error`.  The call is recorded and its report handed back. -/
def unlockAllData (env : Env) (w : World) : World × Option String :=
  (emit .unlockAllData w, env.unlockAllData)

/-- Modelled from the spec: `db.unloadAll()` is not in the file; the spec gives it as
`DropCachedState() -> error`, discarding cached schema state. -/
def unloadAll (env : Env) (w : World) : World × Option String :=
  let r := env.unloadAll w.db.schema
  (emit .unloadAll { w with db := { w.db with schema := r.1 } }, r.2)

/-- Modelled from the spec: `db.loadSchema(create)` is not in the file; the spec gives
it as `ApplySchema(createIfMissing) -> error`, reconciling the schema map. -/
def loadSchema (env : Env) (create : Bool) (w : World) : World × Option String :=
  let r := env.loadSchema create w.db.schema
  (emit (.loadSchema create) { w with db := { w.db with schema := r.1 } }, r.2)

/-- Run the deferred calls of a frame; the head of the list was deferred last. -/
def runDeferred : List (World → World) → World → World
  | [], w => w
  | f :: fs, w => runDeferred fs (f w)

/-! ## `Shutdown` -/

/-- The body of `for i, srv := range db.data` in `Shutdown`, from index `i` on, with the
slice `errs` built so far.  A nil client makes `srv.Call` panic. -/
def shutdownLoop (env : Env) : Nat → List (Option Client) → List String → World →
    World × Except String (List String)
  | _, [], errs, w => (w, .ok errs)
  | _, none :: _, _, w =>
    (w, .error "runtime error: invalid memory address or nil pointer dereference")
  | i, some srv :: rest, errs, w =>
    let err := env.shutdown srv.rank
    let w1 := emit (.call srv.rank "DataSvc.Shutdown") w
    if err == none || !stringsContains (fmtSprint err) "unexpected EOF" then
      shutdownLoop env (i + 1) rest
        (errs ++ ["Could not shutdown server rank " ++ toString i]) w1
    else
      shutdownLoop env (i + 1) rest errs w1

/-- The method `func (db *DBSvc) Shutdown() (err error)`. -/
def Shutdown (env : Env) (w : World) : Run (Option String) :=
  match mutexLock w with                                   -- db.lock.Lock()
  | none => ⟨w, .blocked⟩
  | some w0 =>
    let deferred : List (World → World) := [mutexUnlock]   -- defer db.lock.Unlock()
    match shutdownLoop env 0 w0.db.data [] w0 with
    | (w1, .error p) => ⟨runDeferred deferred w1, .panicked p⟩
    | (w1, .ok errs) =>
      if errs.length > 0 then
        let err := stringsJoin errs "; "
        let w2 := emit (.log ("Shutdown did not fully complete, but best effort has been made: "
                    ++ err)) w1
        ⟨runDeferred deferred w2, .returned (some err)⟩
      else
        ⟨runDeferred deferred w1, .returned none⟩

/-! ## `NewDBSvc` -/

/-- The outcome of a constructor call: what it did and how it ended. -/
structure Construction where
  trace : List Event
  result : Result (DBSvc × Option String)

/-- Modelled from the spec: `tdlog.Panicf` is not in the file; the spec describes the
initialization failure path as a fatal abort.  The call does not return: it panics
with the formatted message. -/
def tdlogPanicf {α : Type} (format : String) (err : String) : Result α :=
  .panicked (format ++ err)

/-- The loop `for i := 0; i < totalRank; i++` of `NewDBSvc` from index `i` on, with `n`
iterations left.  The second component is the named result `err` when the loop is left:
`some e` after the early `return`, `none` when all dials succeeded. -/
def dialLoop (env : Env) : Nat → Nat → World → World × Option String
  | 0, _, w => (w, none)
  | n + 1, i, w =>
    let w1 := emit (.dial i) w
    match env.dial i with
    | some e => (w1, some e)
    | none =>
      dialLoop env n (i + 1)
        { w1 with db := { w1.db with data := w1.db.data.set i (some (Client.mk i)) } }

/-- The function `func NewDBSvc(totalRank int, srvWorkingDir string, dataDir string)
(db *DBSvc, err error)`.  A negative `totalRank` makes `make` panic; with
`totalRank = 0` the expression `db.data[0]` is out of range. -/
def NewDBSvc (env : Env) (totalRank : Int) (srvWorkingDir dataDir : String) :
    Construction :=
  if totalRank < 0 then
    ⟨[], .panicked "runtime error: makeslice: len out of range"⟩
  else
    let db : DBSvc :=
      { srvWorkingDir := srvWorkingDir
        dataDir := dataDir
        totalRank := totalRank
        data := List.replicate totalRank.toNat none
        schema := []
        mySchemaVersion := env.now
        lockHeld := false }
    match dialLoop env totalRank.toNat 0 ⟨db, []⟩ with
    | (w, some err) => ⟨w.trace, .returned (w.db, some err)⟩
    | (w, none) =>
      -- Initialize data partitions
      match w.db.data.get? 0 with
      | none => ⟨w.trace, .panicked "runtime error: index out of range [0] with length 0"⟩
      | some none =>
        ⟨w.trace, .panicked "runtime error: invalid memory address or nil pointer dereference"⟩
      | some (some srv) =>
        let w1 := emit (.call srv.rank "DataSvc.SchemaVersion") w
        match env.schemaVersion srv.rank with
        | .error err => ⟨w1.trace, tdlogPanicf "Error during DB initialization: " err⟩
        | .ok remoteSchemaVersion =>
          if remoteSchemaVersion == 0 then
            let w2 := emit (.log "Intiialize database partitions") w1
            match loadSchema env true w2 with
            | (w3, some err) => ⟨w3.trace, tdlogPanicf "Error duing DB initialization: " err⟩
            | (w3, none) => ⟨w3.trace, .returned (w3.db, none)⟩
          else
            match loadSchema env false w1 with
            | (w3, some err) => ⟨w3.trace, tdlogPanicf "Error during DB initialization: " err⟩
            | (w3, none) => ⟨w3.trace, .returned (w3.db, none)⟩

/-! ## `Sync` -/

/-- The method `func (db *DBSvc) Sync() error`.  The reports of `lockAllData` and
`unloadAll` are dropped by the expression statements that call them; the returned
value is computed before the deferred calls run. -/
def Sync (env : Env) (w : World) : Run (Option String) :=
  match mutexLock w with                                              -- db.lock.Lock()
  | none => ⟨w, .blocked⟩
  | some w0 =>
    let deferred : List (World → World) := [mutexUnlock]              -- defer db.lock.Unlock()
    let w1 := (lockAllData env w0).1                                  -- db.lockAllData()
    let deferred := (fun x => (unlockAllData env x).1) :: deferred    -- defer db.unlockAllData()
    let w2 := (unloadAll env w1).1                                    -- db.unloadAll()
    let r := loadSchema env true w2                                   -- return db.loadSchema(true)
    ⟨runDeferred deferred r.1, .returned r.2⟩

/-! ## Specification vocabulary for `Shutdown` -/

/-- The severed-connection signature: a non-nil error whose text contains
`unexpected EOF`. -/
def isSevered : Option String → Bool
  | none => false
  | some t => stringsContains t "unexpected EOF"

/-- The remote calls of a trace, as (rank, method) pairs, in order. -/
def remoteCalls (tr : List Event) : List (Nat × String) :=
  tr.filterMap fun e =>
    match e with
    | .call r m => some (r, m)
    | _ => none

/-- The connection slice of a coordinator over `N` partitions: entry `k` is the live
connection to rank `k`. -/
def liveData (N : Nat) : List (Option Client) :=
  (List.range N).map fun k => some (Client.mk k)

/-- The ranks below `N` whose `Shutdown` call did not end in the severed-connection
signature, ascending. -/
def failedRanks (env : Env) (N : Nat) : List Nat :=
  (List.range N).filter fun k => !isSevered (env.shutdown k)

/-- The description `Shutdown` records for a failed rank. -/
def failureEntry (k : Nat) : String :=
  "Could not shutdown server rank " ++ toString k

/-- The create flags of the reconciliation calls of a trace, in order. -/
def loadSchemaCalls (tr : List Event) : List Bool :=
  tr.filterMap fun e =>
    match e with
    | .loadSchema create => some create
    | _ => none

/-- The `err` a constructor call handed back to its caller; `none` also when the call
did not return. -/
def returnedError (c : Construction) : Option String :=
  match c.result with
  | .returned r => r.2
  | _ => none

/-! ## Two calls on one coordinator

Each thread performs the events of its call in program order.  The scheduler picks,
at every step, a thread whose next event the mutex allows: `lock` can happen only
while the mutex is free, and `unlock` frees it. -/

/-- Whether the mutex, held or not, lets the event happen now. -/
def enabled (held : Bool) : Event → Bool
  | .lock => !held
  | _ => true

/-- The mutex after the event. -/
def stepMutex (held : Bool) : Event → Bool
  | .lock => true
  | .unlock => false
  | _ => held

/-- Whether `s` is a complete run of two threads, the first (tag `false`) performing
the events `a` and the second (tag `true`) the events `b`, each in program order,
every step allowed by the mutex. -/
def validSchedule : Bool → List Event → List Event → List (Bool × Event) → Bool
  | _, [], [], [] => true
  | held, e :: a, b, (false, x) :: s =>
    x == e && enabled held e && validSchedule (stepMutex held e) a b s
  | held, a, e :: b, (true, x) :: s =>
    x == e && enabled held e && validSchedule (stepMutex held e) a b s
  | _, _, _, _ => false

/-- The events of one thread, tagged with the thread. -/
def onThread (t : Bool) (tr : List Event) : List (Bool × Event) :=
  tr.map fun e => (t, e)

/-! ## Concrete inputs -/

/-- A cluster in which every external call succeeds and partition 0 reports version 0;
each `Shutdown` call completes with its ack and a nil error. -/
def quietEnv : Env where
  now := 1395619200000000000
  dial := fun _ => none
  schemaVersion := fun _ => .ok 0
  shutdown := fun _ => none
  loadSchema := fun _ s => (s, none)
  lockAllData := none
  unlockAllData := none
  unloadAll := fun _ => ([], none)

/-- Ranks 0 and 2 sever the connection on `Shutdown`, rank 1 answers `disk full`. -/
def mixedEnv : Env :=
  { quietEnv with
    shutdown := fun k => if k = 1 then some "disk full" else some "unexpected EOF" }

/-- Every rank severs the connection on `Shutdown`. -/
def severedEnv : Env :=
  { quietEnv with shutdown := fun _ => some "unexpected EOF" }

/-- The version probe on partition 0 fails. -/
def probeFailEnv : Env :=
  { quietEnv with schemaVersion := fun _ => .error "connection is shut down" }

/-- An initialized cluster (version 5) whose non-create reconciliation fails. -/
def reconcileFailEnv : Env :=
  { quietEnv with
    schemaVersion := fun _ => .ok 5
    loadSchema := fun create s => (s, if create then none else some "collection missing") }

/-- The endpoint of rank 1 cannot be dialed. -/
def dialFailEnv : Env :=
  { quietEnv with
    dial := fun k => if k = 1 then some "dial unix /tmp/tiedot/1: connect: no such file or directory"
      else none }

/-- Only the endpoint of rank `k` cannot be dialed; its dial fails with the error `e`. -/
def dialFailAt (k : Nat) (e : String) : Env :=
  { quietEnv with dial := fun i => if i = k then some e else none }

/-- The freeze step reports a failure; reconciliation succeeds. -/
def freezeFailEnv : Env :=
  { quietEnv with lockAllData := some "could not lock rank 0" }

/-- An unlocked coordinator over `N` live connections, with an empty trace. -/
def coordinator (N : Nat) : World :=
  { db :=
      { srvWorkingDir := "/tmp/tiedot"
        dataDir := "/tmp/data"
        totalRank := N
        data := liveData N
        schema := []
        mySchemaVersion := 1395619200000000000
        lockHeld := false }
    trace := [] }

/-! ## Facts about `Shutdown` -/

theorem containsChars_iff (s sub : List Char) :
    containsChars s sub = true ↔ sub <:+: s := by
  have hp : ∀ p t : List Char, startsWithChars p t = true ↔ p <+: t := by
    intro p
    induction p with
    | nil => intro t; simp [startsWithChars]
    | cons a p ih =>
      intro t
      cases t with
      | nil => simp [startsWithChars]
      | cons b t => simp [startsWithChars, ih, List.cons_prefix_cons]
  induction s with
  | nil => simp [containsChars, hp]
  | cons c s ih =>
    simp only [containsChars, Bool.or_eq_true, hp, ih, List.infix_cons_iff]

theorem remoteCalls_append (a b : List Event) :
    remoteCalls (a ++ b) = remoteCalls a ++ remoteCalls b := by
  simp [remoteCalls, List.filterMap_append]

/-- One pass of the loop over live connections to ranks `i, i+1, .., i+n-1`: every rank
is called once, in order, and exactly the non-severed ranks get an entry. -/
theorem shutdownLoop_live (env : Env) (n i : Nat) (errs : List String) (w : World) :
    shutdownLoop env i ((List.range' i n).map fun k => some (Client.mk k)) errs w =
      ({ w with trace := w.trace ++
            (List.range' i n).map fun k => Event.call k "DataSvc.Shutdown" },
        .ok (errs ++ ((List.range' i n).filter
            fun k => !isSevered (env.shutdown k)).map failureEntry)) := by
  induction n generalizing i errs w with
  | zero => simp [shutdownLoop]
  | succ n ih =>
    simp only [List.range'_succ, List.map_cons, shutdownLoop]
    cases h : env.shutdown i with
    | none =>
      simp [ih, emit, isSevered, h, List.filter_cons, failureEntry]
    | some t =>
      by_cases hs : stringsContains t "unexpected EOF" = true
      · simp [ih, emit, isSevered, h, List.filter_cons, fmtSprint, hs]
      · simp [ih, emit, isSevered, h, List.filter_cons, fmtSprint, hs, failureEntry]

theorem liveData_eq (N : Nat) :
    liveData N = (List.range' 0 N).map fun k => some (Client.mk k) := by
  simp [liveData, List.range_eq_range']

/-- The whole of `Shutdown` on an unlocked coordinator over `N` live connections. -/
theorem Shutdown_live (env : Env) (N : Nat) (w : World)
    (hdata : w.db.data = liveData N) (hlock : w.db.lockHeld = false) :
    (Shutdown env w).result =
        (if failedRanks env N = [] then .returned none
         else .returned (some (stringsJoin ((failedRanks env N).map failureEntry) "; "))) ∧
    (Shutdown env w).world.db = w.db ∧
    ∃ logs : List Event, (∀ e ∈ logs, ∃ m, e = Event.log m) ∧
      (Shutdown env w).world.trace =
        w.trace ++ [Event.lock] ++
          ((List.range N).map fun k => Event.call k "DataSvc.Shutdown") ++ logs ++
          [Event.unlock] := by
  obtain ⟨⟨wd, dd, tr, data, sch, ver, lk⟩, trace⟩ := w
  simp only at hdata hlock
  subst hdata hlock
  have hl := shutdownLoop_live env N 0 []
    ⟨⟨wd, dd, tr, liveData N, sch, ver, true⟩, trace ++ [Event.lock]⟩
  rw [← liveData_eq] at hl
  have hf : (List.range' 0 N).filter (fun k => !isSevered (env.shutdown k))
      = failedRanks env N := by
    simp [failedRanks, List.range_eq_range']
  rw [hf] at hl
  simp only [Shutdown, mutexLock, Bool.false_eq_true, if_false, emit, hl, List.nil_append,
    gt_iff_lt]
  by_cases he : failedRanks env N = []
  · have hnot : ¬ 0 < ((failedRanks env N).map failureEntry).length := by simp [he]
    rw [if_neg hnot, if_pos he]
    exact ⟨rfl, rfl, [], by simp, by simp [runDeferred, mutexUnlock, emit, List.range_eq_range']⟩
  · have hpos : 0 < ((failedRanks env N).map failureEntry).length := by
      simp [List.length_pos, he]
    rw [if_pos hpos, if_neg he]
    refine ⟨rfl, rfl, [Event.log ("Shutdown did not fully complete, but best effort has been made: "
      ++ stringsJoin ((failedRanks env N).map failureEntry) "; ")], ?_, ?_⟩
    · intro e he'
      exact ⟨_, List.mem_singleton.mp he'⟩
    · simp [runDeferred, mutexUnlock, emit, List.range_eq_range']

/-! ## Facts about `NewDBSvc` -/

/-- All dials from rank `i` to rank `i+n-1` succeed: the loop dials each of them once,
in order, and fills the slice with the live connections. -/
theorem dialLoop_ok (env : Env) (n i : Nat) (w : World) (pre : List (Option Client))
    (hdial : ∀ j, i ≤ j → j < i + n → env.dial j = none)
    (hdata : w.db.data = pre ++ List.replicate n none) (hpre : pre.length = i) :
    dialLoop env n i w =
      ({ db := { w.db with data := pre ++ (List.range' i n).map fun k => some (Client.mk k) }
         trace := w.trace ++ (List.range' i n).map Event.dial }, none) := by
  induction n generalizing i w pre with
  | zero =>
    simp only [List.replicate, List.append_nil] at hdata
    simp [dialLoop, ← hdata]
  | succ n ih =>
    have h0 : env.dial i = none := hdial i (Nat.le_refl _) (by omega)
    simp only [dialLoop, h0, emit]
    rw [ih (i + 1) _ (pre ++ [some (Client.mk i)])
      (fun j h1 h2 => hdial j (by omega) (by omega))
      (by simp [hdata, List.replicate_succ, ← hpre])
      (by simp [hpre])]
    simp [List.range'_succ]

/-- Dials to ranks `i .. i+k-1` succeed and the dial to rank `i+k` fails: the loop stops
there with that error, having dialed `i .. i+k`. -/
theorem dialLoop_fail (env : Env) (k n i : Nat) (w : World) (e : String)
    (hok : ∀ j, i ≤ j → j < i + k → env.dial j = none)
    (hbad : env.dial (i + k) = some e) (hk : k < n) :
    (dialLoop env n i w).2 = some e ∧
    (dialLoop env n i w).1.trace = w.trace ++ (List.range' i (k + 1)).map Event.dial := by
  induction k generalizing n i w with
  | zero =>
    obtain ⟨n, rfl⟩ : ∃ m, n = m + 1 := ⟨n - 1, by omega⟩
    simp only [Nat.add_zero] at hbad
    simp [dialLoop, hbad, emit]
  | succ k ih =>
    obtain ⟨n, rfl⟩ : ∃ m, n = m + 1 := ⟨n - 1, by omega⟩
    have h0 : env.dial i = none := hok i (Nat.le_refl _) (by omega)
    have hbad' : env.dial (i + 1 + k) = some e := by
      rw [← hbad]; congr 1; omega
    have := ih n (i + 1)
      { db := { w.db with data := w.db.data.set i (some (Client.mk i)) }
        trace := w.trace ++ [Event.dial i] }
      (fun j h1 h2 => hok j (by omega) (by omega)) hbad' (by omega)
    simp only [dialLoop, h0, emit]
    refine ⟨this.1, ?_⟩
    rw [this.2]
    simp [List.range'_succ]

/-- Trace and result of `NewDBSvc` when every dial and the version probe succeed. -/
theorem NewDBSvc_connected (env : Env) (totalRank : Int) (srvWorkingDir dataDir : String)
    (v : Int) (hN : 1 ≤ totalRank)
    (hdial : ∀ i : Nat, (i : Int) < totalRank → env.dial i = none)
    (hprobe : env.schemaVersion 0 = .ok v) :
    NewDBSvc env totalRank srvWorkingDir dataDir =
      let db : DBSvc :=
        { srvWorkingDir := srvWorkingDir
          dataDir := dataDir
          totalRank := totalRank
          data := liveData totalRank.toNat
          schema := (env.loadSchema (v == 0) []).1
          mySchemaVersion := env.now
          lockHeld := false }
      { trace := (List.range totalRank.toNat).map Event.dial ++
          [Event.call 0 "DataSvc.SchemaVersion"] ++
          (if v == 0 then [Event.log "Intiialize database partitions"] else []) ++
          [Event.loadSchema (v == 0)]
        result :=
          match (env.loadSchema (v == 0) []).2 with
          | none => .returned (db, none)
          | some e =>
            .panicked ((if v == 0 then "Error duing DB initialization: "
              else "Error during DB initialization: ") ++ e) } := by
  obtain ⟨n, rfl⟩ : ∃ n : Nat, totalRank = ((n + 1 : Nat) : Int) :=
    ⟨totalRank.toNat - 1, by omega⟩
  have hnot : ¬ (((n + 1 : Nat) : Int) < 0) := by omega
  have hd := dialLoop_ok env (n + 1) 0
    ⟨⟨srvWorkingDir, dataDir, ((n + 1 : Nat) : Int), List.replicate (n + 1) none, [],
      env.now, false⟩, []⟩ []
    (fun j _ h2 => hdial j (by omega)) (by simp) rfl
  simp only [NewDBSvc, hnot, if_false, Int.toNat_ofNat, hd]
  simp only [List.nil_append, List.range'_succ, List.map_cons, List.get?_cons_zero, emit,
    hprobe, liveData, List.range_eq_range']
  by_cases hv : v = 0
  · subst hv
    cases hl : (env.loadSchema true []).2 <;>
      simp [loadSchema, emit, hl, tdlogPanicf]
  · have hv' : (v == 0) = false := by simpa using hv
    cases hl : (env.loadSchema false []).2 <;>
      simp [loadSchema, emit, hl, tdlogPanicf, hv']

/-- Trace and result of `NewDBSvc` when every dial succeeds and the version probe on
partition 0 fails. -/
theorem NewDBSvc_probe_failed (env : Env) (totalRank : Int) (srvWorkingDir dataDir : String)
    (e : String) (hN : 1 ≤ totalRank)
    (hdial : ∀ i : Nat, (i : Int) < totalRank → env.dial i = none)
    (hprobe : env.schemaVersion 0 = .error e) :
    NewDBSvc env totalRank srvWorkingDir dataDir =
      { trace := (List.range totalRank.toNat).map Event.dial ++
          [Event.call 0 "DataSvc.SchemaVersion"]
        result := .panicked ("Error during DB initialization: " ++ e) } := by
  obtain ⟨n, rfl⟩ : ∃ n : Nat, totalRank = ((n + 1 : Nat) : Int) :=
    ⟨totalRank.toNat - 1, by omega⟩
  have hnot : ¬ (((n + 1 : Nat) : Int) < 0) := by omega
  have hd := dialLoop_ok env (n + 1) 0
    ⟨⟨srvWorkingDir, dataDir, ((n + 1 : Nat) : Int), List.replicate (n + 1) none, [],
      env.now, false⟩, []⟩ []
    (fun j _ h2 => hdial j (by omega)) (by simp) rfl
  simp only [NewDBSvc, hnot, if_false, Int.toNat_ofNat, hd]
  simp [List.range'_succ, emit, hprobe, List.range_eq_range', tdlogPanicf]

/-- On a fresh cluster in which every call succeeds, `NewDBSvc` over `N ≥ 1` partitions
returns a nil error and the unlocked coordinator over `N` live connections. -/
theorem NewDBSvc_yields_coordinator (N : Nat) (hN : 1 ≤ N) :
    (NewDBSvc quietEnv N "/tmp/tiedot" "/tmp/data").result =
      .returned ((coordinator N).db, none) := by
  rw [NewDBSvc_connected quietEnv N "/tmp/tiedot" "/tmp/data" 0 (by omega)
    (fun _ _ => rfl) rfl]
  simp [quietEnv, coordinator]

/-! ## Facts about `Sync` -/

/-- The whole of `Sync` on an unlocked coordinator. -/
theorem Sync_unlocked (env : Env) (w : World) (hlock : w.db.lockHeld = false) :
    Sync env w =
      { world :=
          { db := { w.db with
              schema := (env.loadSchema true (env.unloadAll w.db.schema).1).1
              lockHeld := false }
            trace := w.trace ++ [Event.lock, Event.lockAllData, Event.unloadAll,
              Event.loadSchema true, Event.unlockAllData, Event.unlock] }
        result := .returned (env.loadSchema true (env.unloadAll w.db.schema).1).2 } := by
  simp [Sync, mutexLock, hlock, lockAllData, unloadAll, loadSchema, unlockAllData,
    runDeferred, mutexUnlock, emit]

/-! ## Facts about schedules -/

/-- Once the first thread has finished, the rest of the run is the second thread's. -/
theorem validSchedule_left_done (held : Bool) (b : List Event) (s : List (Bool × Event))
    (h : validSchedule held [] b s = true) : s = onThread true b := by
  induction b generalizing held s with
  | nil =>
    cases s with
    | nil => rfl
    | cons x s => obtain ⟨t, e⟩ := x; cases t <;> simp [validSchedule] at h
  | cons e b ih =>
    cases s with
    | nil => simp [validSchedule] at h
    | cons x s =>
      obtain ⟨t, x⟩ := x
      cases t with
      | false => simp [validSchedule] at h
      | true =>
        simp only [validSchedule, Bool.and_eq_true, beq_iff_eq] at h
        obtain ⟨⟨rfl, _⟩, h⟩ := h
        simp [onThread, ih _ _ h]

/-- Once the second thread has finished, the rest of the run is the first thread's. -/
theorem validSchedule_right_done (held : Bool) (a : List Event) (s : List (Bool × Event))
    (h : validSchedule held a [] s = true) : s = onThread false a := by
  induction a generalizing held s with
  | nil =>
    cases s with
    | nil => rfl
    | cons x s => obtain ⟨t, e⟩ := x; cases t <;> simp [validSchedule] at h
  | cons e a ih =>
    cases s with
    | nil => simp [validSchedule] at h
    | cons x s =>
      obtain ⟨t, x⟩ := x
      cases t with
      | true => simp [validSchedule] at h
      | false =>
        simp only [validSchedule, Bool.and_eq_true, beq_iff_eq] at h
        obtain ⟨⟨rfl, _⟩, h⟩ := h
        simp [onThread, ih _ _ h]

/-- While the first thread holds the mutex and the second waits at `lock`, the run
continues with the first thread up to and including its `unlock`. -/
theorem validSchedule_left_holds (A b : List Event) (s : List (Bool × Event))
    (hA : Event.unlock ∉ A)
    (h : validSchedule true (A ++ [Event.unlock]) (Event.lock :: b) s = true) :
    s = onThread false (A ++ [Event.unlock]) ++ onThread true (Event.lock :: b) := by
  induction A generalizing s with
  | nil =>
    cases s with
    | nil => simp [validSchedule] at h
    | cons x s =>
      obtain ⟨t, x⟩ := x
      cases t with
      | true => simp [validSchedule, enabled] at h
      | false =>
        simp only [List.nil_append, validSchedule, Bool.and_eq_true, beq_iff_eq] at h
        obtain ⟨⟨rfl, _⟩, h⟩ := h
        simp [onThread, validSchedule_left_done _ _ _ h]
  | cons e A ih =>
    cases s with
    | nil => simp [validSchedule] at h
    | cons x s =>
      obtain ⟨t, x⟩ := x
      cases t with
      | true => simp [validSchedule, enabled] at h
      | false =>
        simp only [List.cons_append, validSchedule, Bool.and_eq_true, beq_iff_eq] at h
        obtain ⟨⟨rfl, hen⟩, h⟩ := h
        have hstep : stepMutex true x = true := by
          cases x <;> simp_all [stepMutex, enabled]
        rw [hstep] at h
        have := ih s (fun hm => hA (List.mem_cons_of_mem _ hm)) h
        simp [onThread, this]

/-- While the second thread holds the mutex and the first waits at `lock`, the run
continues with the second thread up to and including its `unlock`. -/
theorem validSchedule_right_holds (a B : List Event) (s : List (Bool × Event))
    (hB : Event.unlock ∉ B)
    (h : validSchedule true (Event.lock :: a) (B ++ [Event.unlock]) s = true) :
    s = onThread true (B ++ [Event.unlock]) ++ onThread false (Event.lock :: a) := by
  induction B generalizing s with
  | nil =>
    cases s with
    | nil => simp [validSchedule] at h
    | cons x s =>
      obtain ⟨t, x⟩ := x
      cases t with
      | false => simp [validSchedule, enabled] at h
      | true =>
        simp only [List.nil_append, validSchedule, Bool.and_eq_true, beq_iff_eq] at h
        obtain ⟨⟨rfl, _⟩, h⟩ := h
        simp [onThread, validSchedule_right_done _ _ _ h]
  | cons e B ih =>
    cases s with
    | nil => simp [validSchedule] at h
    | cons x s =>
      obtain ⟨t, x⟩ := x
      cases t with
      | false => simp [validSchedule, enabled] at h
      | true =>
        simp only [List.cons_append, validSchedule, Bool.and_eq_true, beq_iff_eq] at h
        obtain ⟨⟨rfl, hen⟩, h⟩ := h
        have hstep : stepMutex true x = true := by
          cases x <;> simp_all [stepMutex, enabled]
        rw [hstep] at h
        have := ih s (fun hm => hB (List.mem_cons_of_mem _ hm)) h
        simp [onThread, this]

/-- Two critical sections on one mutex run one after the other. -/
theorem validSchedule_serial (A B : List Event) (s : List (Bool × Event))
    (hA : Event.unlock ∉ A) (hB : Event.unlock ∉ B)
    (h : validSchedule false (Event.lock :: (A ++ [Event.unlock]))
      (Event.lock :: (B ++ [Event.unlock])) s = true) :
    s = onThread false (Event.lock :: (A ++ [Event.unlock])) ++
          onThread true (Event.lock :: (B ++ [Event.unlock])) ∨
    s = onThread true (Event.lock :: (B ++ [Event.unlock])) ++
          onThread false (Event.lock :: (A ++ [Event.unlock])) := by
  cases s with
  | nil => simp [validSchedule] at h
  | cons x s =>
    obtain ⟨t, x⟩ := x
    cases t with
    | false =>
      left
      simp only [validSchedule, Bool.and_eq_true, beq_iff_eq, stepMutex] at h
      obtain ⟨⟨rfl, _⟩, h⟩ := h
      have := validSchedule_left_holds A _ s hA h
      simp [onThread, this]
    | true =>
      right
      simp only [validSchedule, Bool.and_eq_true, beq_iff_eq, stepMutex] at h
      obtain ⟨⟨rfl, _⟩, h⟩ := h
      have := validSchedule_right_holds _ B s hB h
      simp [onThread, this]

/-! ## The claims -/

/-- C1: `Shutdown` never short-circuits.  On an unlocked coordinator over `N` live
connections, whatever each rank's `DataSvc.Shutdown` call produces (ack, severed
connection, any other error), the call returns, and the remote calls it adds to the
trace are exactly one `DataSvc.Shutdown` per rank, for ranks `0, 1, .., N-1` in that
order: no call is repeated, and a rank is called if and only if it is below `N`. -/
theorem Shutdown_calls_every_rank (env : Env) (N : Nat) (w : World)
    (hdata : w.db.data = liveData N) (hlock : w.db.lockHeld = false) :
    (∃ err, (Shutdown env w).result = .returned err) ∧
    ∃ new : List Event, (Shutdown env w).world.trace = w.trace ++ new ∧
      remoteCalls new = (List.range N).map (fun k => (k, "DataSvc.Shutdown")) ∧
      (remoteCalls new).Nodup ∧
      ∀ k, (k, "DataSvc.Shutdown") ∈ remoteCalls new ↔ k < N := by
  obtain ⟨hres, -, logs, hlogs, htr⟩ := Shutdown_live env N w hdata hlock
  have hlogs0 : remoteCalls logs = [] := by
    unfold remoteCalls
    rw [List.filterMap_eq_nil_iff]
    intro e he
    obtain ⟨m, rfl⟩ := hlogs e he
    rfl
  have hcalls : ∀ l : List Nat, remoteCalls (l.map fun k => Event.call k "DataSvc.Shutdown")
      = l.map (fun k => (k, "DataSvc.Shutdown")) := by
    intro l
    induction l with
    | nil => rfl
    | cons a l ih =>
      simp only [remoteCalls] at ih
      simp [remoteCalls, ih]
  have hnew : remoteCalls ([Event.lock] ++
      ((List.range N).map fun k => Event.call k "DataSvc.Shutdown") ++ logs ++ [Event.unlock])
      = (List.range N).map (fun k => (k, "DataSvc.Shutdown")) := by
    rw [remoteCalls_append, remoteCalls_append, remoteCalls_append, hlogs0, hcalls]
    simp [remoteCalls]
  have hinj : Function.Injective (fun k : Nat => (k, "DataSvc.Shutdown")) := by
    intro a b hab
    exact (Prod.mk.inj hab).1
  refine ⟨?_, [Event.lock] ++ ((List.range N).map fun k => Event.call k "DataSvc.Shutdown")
    ++ logs ++ [Event.unlock], ?_, hnew, ?_, ?_⟩
  · rw [hres]
    split <;> exact ⟨_, rfl⟩
  · rw [htr]; simp
  · rw [hnew]
    exact (List.nodup_range N).map hinj
  · intro k
    rw [hnew, List.mem_map]
    constructor
    · rintro ⟨j, hj, hjk⟩
      exact (Prod.mk.inj hjk).1 ▸ List.mem_range.mp hj
    · intro hk
      exact ⟨k, List.mem_range.mpr hk, rfl⟩

/-- C1, at the mixed cluster of three partitions: rank 1 fails and rank 2 is still
called. -/
theorem Shutdown_calls_every_rank_witness :
    (coordinator 3).db.data = liveData 3 ∧ (coordinator 3).db.lockHeld = false ∧
    ((∃ err, (Shutdown mixedEnv (coordinator 3)).result = .returned err) ∧
    ∃ new : List Event,
      (Shutdown mixedEnv (coordinator 3)).world.trace = (coordinator 3).trace ++ new ∧
      remoteCalls new = (List.range 3).map (fun k => (k, "DataSvc.Shutdown")) ∧
      (remoteCalls new).Nodup ∧
      ∀ k, (k, "DataSvc.Shutdown") ∈ remoteCalls new ↔ k < 3) :=
  ⟨rfl, rfl, Shutdown_calls_every_rank mixedEnv 3 (coordinator 3) rfl rfl⟩

/-- C2: the aggregate error of `Shutdown` names exactly the failed ranks.  On an
unlocked coordinator over `N` live connections, if at least one rank's call did not end
in the severed-connection signature, `Shutdown` returns a non-nil error whose text is
the `"; "`-joined list, in ascending rank order, of `Could not shutdown server rank k`
for exactly the ranks `k < N` whose call did not end in the severed-connection
signature. -/
theorem Shutdown_error_names_failed_ranks (env : Env) (N : Nat) (w : World)
    (hdata : w.db.data = liveData N) (hlock : w.db.lockHeld = false)
    (hfail : ∃ k, k < N ∧ isSevered (env.shutdown k) = false) :
    (Shutdown env w).result =
      .returned (some (stringsJoin
        (((List.range N).filter fun k => !isSevered (env.shutdown k)).map
          fun k => "Could not shutdown server rank " ++ toString k) "; ")) := by
  obtain ⟨hres, -⟩ := Shutdown_live env N w hdata hlock
  have hne : failedRanks env N ≠ [] := by
    obtain ⟨k, hk, hs⟩ := hfail
    intro h
    have hm : k ∈ failedRanks env N := by
      simp [failedRanks, List.mem_filter, hk, hs]
    rw [h] at hm
    exact List.not_mem_nil _ hm
  rw [hres, if_neg hne]
  rfl

/-- C2, at the mixed cluster: three partitions, ranks 0 and 2 severed, rank 1 answering
`disk full`, give the single entry for rank 1. -/
theorem Shutdown_error_names_failed_ranks_witness :
    (∃ k, k < 3 ∧ isSevered (mixedEnv.shutdown k) = false) ∧
    (Shutdown mixedEnv (coordinator 3)).result =
      .returned (some "Could not shutdown server rank 1") :=
  ⟨⟨1, by decide, by decide⟩,
    (Shutdown_error_names_failed_ranks mixedEnv 3 (coordinator 3) rfl rfl
      ⟨1, by decide, by decide⟩).trans (by decide)⟩

/-- C3 as stated fails: on one partition whose `Shutdown` call completes with its ack
and a nil error, no rank returned an error other than the severed-connection
signature, yet `Shutdown` returns the error `Could not shutdown server rank 0`. -/
theorem Shutdown_ack_is_recorded_as_failure :
    quietEnv.shutdown 0 = none ∧
    (¬ ∃ k, k < 1 ∧ ∃ t, quietEnv.shutdown k = some t ∧
        stringsContains t "unexpected EOF" = false) ∧
    (Shutdown quietEnv (coordinator 1)).result =
      .returned (some "Could not shutdown server rank 0") := by
  refine ⟨rfl, ?_, by decide⟩
  rintro ⟨k, -, t, ht, -⟩
  simp [quietEnv] at ht

/-- C3, amended: `Shutdown` returns an error if and only if at least one rank's call
ended in anything but the severed-connection signature, that is, completed with a nil
error or returned an error without `unexpected EOF`; it returns nil if and only if
every rank's call ended in the severed-connection signature. -/
theorem Shutdown_error_iff_some_rank_not_severed (env : Env) (N : Nat) (w : World)
    (hdata : w.db.data = liveData N) (hlock : w.db.lockHeld = false) :
    ((∃ e, (Shutdown env w).result = .returned (some e)) ↔
      ∃ k, k < N ∧ (env.shutdown k = none ∨
        ∃ t, env.shutdown k = some t ∧ stringsContains t "unexpected EOF" = false)) ∧
    ((Shutdown env w).result = .returned none ↔
      ∀ k, k < N → ∃ t, env.shutdown k = some t ∧
        stringsContains t "unexpected EOF" = true) := by
  obtain ⟨hres, -⟩ := Shutdown_live env N w hdata hlock
  have hsev : ∀ k, isSevered (env.shutdown k) = true ↔
      ∃ t, env.shutdown k = some t ∧ stringsContains t "unexpected EOF" = true := by
    intro k
    cases h : env.shutdown k <;> simp [isSevered]
  have hnil : failedRanks env N = [] ↔ ∀ k, k < N → isSevered (env.shutdown k) = true := by
    simp [failedRanks, List.filter_eq_nil_iff]
  constructor
  · constructor
    · rintro ⟨e, he⟩
      rw [hres] at he
      by_cases hn : failedRanks env N = []
      · rw [if_pos hn] at he
        cases he
      · rw [hnil] at hn
        push_neg at hn
        obtain ⟨k, hk, hks⟩ := hn
        refine ⟨k, hk, ?_⟩
        cases h : env.shutdown k with
        | none => exact Or.inl rfl
        | some t =>
          right
          refine ⟨t, rfl, ?_⟩
          simpa [isSevered, h] using hks
    · rintro ⟨k, hk, hcase⟩
      have hn : failedRanks env N ≠ [] := by
        rw [Ne, hnil]
        push_neg
        refine ⟨k, hk, ?_⟩
        rcases hcase with h | ⟨t, h, ht⟩
        · simp [isSevered, h]
        · simp [isSevered, h, ht]
      rw [hres, if_neg hn]
      exact ⟨_, rfl⟩
  · rw [hres]
    constructor
    · intro h k hk
      by_cases hn : failedRanks env N = []
      · exact (hsev k).mp (hnil.mp hn k hk)
      · rw [if_neg hn] at h
        cases h
    · intro h
      have hn : failedRanks env N = [] := hnil.mpr fun k hk => (hsev k).mpr (h k hk)
      rw [if_pos hn]

/-- C3 amended, at the mixed cluster: rank 1 answered `disk full`, so an error is
returned. -/
theorem Shutdown_error_iff_some_rank_not_severed_witness :
    ∃ e, (Shutdown mixedEnv (coordinator 3)).result = .returned (some e) :=
  (Shutdown_error_iff_some_rank_not_severed mixedEnv 3 (coordinator 3) rfl rfl).1.mpr
    ⟨1, by decide, Or.inr ⟨"disk full", rfl, by decide⟩⟩

/-- C4: if every rank's `Shutdown` call returns the severed-connection signature (an
error whose text contains `unexpected EOF`), `Shutdown` returns nil, for every number
of partitions. -/
theorem Shutdown_all_severed_returns_nil (env : Env) (N : Nat) (w : World)
    (hdata : w.db.data = liveData N) (hlock : w.db.lockHeld = false)
    (hsev : ∀ k, k < N → ∃ t, env.shutdown k = some t ∧
      stringsContains t "unexpected EOF" = true) :
    (Shutdown env w).result = .returned none := by
  obtain ⟨hres, -⟩ := Shutdown_live env N w hdata hlock
  have hn : failedRanks env N = [] := by
    simp only [failedRanks, List.filter_eq_nil_iff, List.mem_range]
    intro k hk
    obtain ⟨t, ht, hc⟩ := hsev k hk
    simp [isSevered, ht, hc]
  rw [hres, if_pos hn]

/-- C4, at four partitions that all sever the connection. -/
theorem Shutdown_all_severed_returns_nil_witness :
    (∀ k, k < 4 → ∃ t, severedEnv.shutdown k = some t ∧
      stringsContains t "unexpected EOF" = true) ∧
    (Shutdown severedEnv (coordinator 4)).result = .returned none :=
  ⟨fun _ _ => ⟨"unexpected EOF", rfl, by decide⟩,
    Shutdown_all_severed_returns_nil severedEnv 4 (coordinator 4) rfl rfl
      fun _ _ => ⟨"unexpected EOF", rfl, by decide⟩⟩

/-- C5: construction picks the reconciliation mode from partition 0's schema version.
For `totalRank ≥ 1` with every dial and the version probe succeeding: if the remote
version is 0 the reconciliation calls of `NewDBSvc` are exactly one `loadSchema(true)`;
if it is non-zero they are exactly one `loadSchema(false)` (so no create-mode call);
and the only remote call is the `DataSvc.SchemaVersion` probe on rank 0. -/
theorem NewDBSvc_reconciliation_mode (env : Env) (totalRank : Int)
    (srvWorkingDir dataDir : String) (v : Int) (hN : 1 ≤ totalRank)
    (hdial : ∀ i : Nat, (i : Int) < totalRank → env.dial i = none)
    (hprobe : env.schemaVersion 0 = .ok v) :
    (v = 0 → loadSchemaCalls (NewDBSvc env totalRank srvWorkingDir dataDir).trace = [true]) ∧
    (v ≠ 0 → loadSchemaCalls (NewDBSvc env totalRank srvWorkingDir dataDir).trace = [false]) ∧
    remoteCalls (NewDBSvc env totalRank srvWorkingDir dataDir).trace =
      [(0, "DataSvc.SchemaVersion")] := by
  have hdials : ∀ l : List Nat, loadSchemaCalls (l.map Event.dial) = [] ∧
      remoteCalls (l.map Event.dial) = [] := by
    intro l
    induction l with
    | nil => exact ⟨rfl, rfl⟩
    | cons a l ih =>
      obtain ⟨h1, h2⟩ := ih
      simp only [loadSchemaCalls, remoteCalls] at h1 h2
      simp [loadSchemaCalls, remoteCalls, h1, h2]
  have happ : ∀ a b : List Event, loadSchemaCalls (a ++ b) =
      loadSchemaCalls a ++ loadSchemaCalls b := by
    intro a b
    simp [loadSchemaCalls, List.filterMap_append]
  rw [NewDBSvc_connected env totalRank srvWorkingDir dataDir v hN hdial hprobe]
  simp only [happ, remoteCalls_append, (hdials _).1, (hdials _).2, List.nil_append]
  refine ⟨?_, ?_, ?_⟩
  · rintro rfl
    simp [loadSchemaCalls]
  · intro hv
    have hv' : (v == 0) = false := by simpa using hv
    simp [loadSchemaCalls, hv']
  · by_cases hv : v = 0
    · subst hv
      simp [remoteCalls]
    · have hv' : (v == 0) = false := by simpa using hv
      simp [remoteCalls, hv']

/-- C5, at a fresh cluster of two partitions (version 0): one create-mode call. -/
theorem NewDBSvc_reconciliation_mode_witness :
    (1 : Int) ≤ 2 ∧ quietEnv.schemaVersion 0 = .ok 0 ∧
    loadSchemaCalls (NewDBSvc quietEnv 2 "/tmp/tiedot" "/tmp/data").trace = [true] :=
  ⟨by decide, rfl,
    (NewDBSvc_reconciliation_mode quietEnv 2 "/tmp/tiedot" "/tmp/data" 0 (by decide)
      (fun _ _ => rfl) rfl).1 rfl⟩

/-- C6 as stated fails: one partition, the dial succeeds, the version probe on
partition 0 fails; `NewDBSvc` does not return an error to its caller, it panics. -/
theorem NewDBSvc_probe_failure_panics :
    (∀ i : Nat, (i : Int) < 1 → probeFailEnv.dial i = none) ∧
    probeFailEnv.schemaVersion 0 = .error "connection is shut down" ∧
    (NewDBSvc probeFailEnv 1 "/tmp/tiedot" "/tmp/data").result =
      .panicked "Error during DB initialization: connection is shut down" ∧
    ¬ ∃ db err, (NewDBSvc probeFailEnv 1 "/tmp/tiedot" "/tmp/data").result =
      .returned (db, some err) := by
  have h : (NewDBSvc probeFailEnv 1 "/tmp/tiedot" "/tmp/data").result =
      .panicked "Error during DB initialization: connection is shut down" := by decide
  refine ⟨fun _ _ => rfl, rfl, h, ?_⟩
  rintro ⟨db, err, hr⟩
  rw [h] at hr
  cases hr

/-- C6, amended: for `totalRank ≥ 1` with every dial succeeding, if the version probe
on partition 0 fails, or the chosen reconciliation call (create for version 0,
non-create otherwise) fails, `NewDBSvc` does not return to its caller: it panics
through `tdlog.Panicf` with a message that ends in the text of the failing call's
error. -/
theorem NewDBSvc_init_failure_panics (env : Env) (totalRank : Int)
    (srvWorkingDir dataDir : String) (e : String) (hN : 1 ≤ totalRank)
    (hdial : ∀ i : Nat, (i : Int) < totalRank → env.dial i = none)
    (hfail : env.schemaVersion 0 = .error e ∨
      ∃ v, env.schemaVersion 0 = .ok v ∧ (env.loadSchema (v == 0) []).2 = some e) :
    (∃ msg, (NewDBSvc env totalRank srvWorkingDir dataDir).result = .panicked (msg ++ e)) ∧
    ∀ r, (NewDBSvc env totalRank srvWorkingDir dataDir).result ≠ .returned r := by
  have key : ∃ msg, (NewDBSvc env totalRank srvWorkingDir dataDir).result =
      .panicked (msg ++ e) := by
    rcases hfail with hprobe | ⟨v, hprobe, hload⟩
    · rw [NewDBSvc_probe_failed env totalRank srvWorkingDir dataDir e hN hdial hprobe]
      exact ⟨_, rfl⟩
    · rw [NewDBSvc_connected env totalRank srvWorkingDir dataDir v hN hdial hprobe]
      simp only [hload]
      exact ⟨_, rfl⟩
  refine ⟨key, ?_⟩
  intro r hr
  obtain ⟨msg, hm⟩ := key
  rw [hm] at hr
  cases hr

/-- C6 amended, at an initialized cluster (version 5) of two partitions whose
non-create reconciliation fails: the constructor panics and returns nothing. -/
theorem NewDBSvc_init_failure_panics_witness :
    (1 : Int) ≤ 2 ∧
    (∃ v, reconcileFailEnv.schemaVersion 0 = .ok v ∧
      (reconcileFailEnv.loadSchema (v == 0) []).2 = some "collection missing") ∧
    (∃ msg, (NewDBSvc reconcileFailEnv 2 "/tmp/tiedot" "/tmp/data").result =
      .panicked (msg ++ "collection missing")) ∧
    ∀ r, (NewDBSvc reconcileFailEnv 2 "/tmp/tiedot" "/tmp/data").result ≠ .returned r :=
  ⟨by decide, ⟨5, rfl, rfl⟩,
    NewDBSvc_init_failure_panics reconcileFailEnv 2 "/tmp/tiedot" "/tmp/data"
      "collection missing" (by decide) (fun _ _ => rfl) (Or.inr ⟨5, rfl, rfl⟩)⟩

/-- C7 as stated fails: the returned error does not name the failing rank.  On two
partitions, a dial failure at rank 0 and a dial failure at rank 1 (after rank 0
connected), both with the error `connection refused`, make `NewDBSvc` return the same
error, so no reading of the returned error gives rank 0 in the first case and rank 1 in
the second. -/
theorem NewDBSvc_dial_error_does_not_name_rank :
    (dialFailAt 0 "connection refused").dial 0 = some "connection refused" ∧
    (dialFailAt 1 "connection refused").dial 0 = none ∧
    (dialFailAt 1 "connection refused").dial 1 = some "connection refused" ∧
    returnedError (NewDBSvc (dialFailAt 0 "connection refused") 2 "/tmp/tiedot" "/tmp/data") =
      some "connection refused" ∧
    returnedError (NewDBSvc (dialFailAt 1 "connection refused") 2 "/tmp/tiedot" "/tmp/data") =
      some "connection refused" ∧
    ¬ ∃ rankOf : Option String → Nat,
      rankOf (returnedError
        (NewDBSvc (dialFailAt 0 "connection refused") 2 "/tmp/tiedot" "/tmp/data")) = 0 ∧
      rankOf (returnedError
        (NewDBSvc (dialFailAt 1 "connection refused") 2 "/tmp/tiedot" "/tmp/data")) = 1 := by
  have h0 : returnedError
      (NewDBSvc (dialFailAt 0 "connection refused") 2 "/tmp/tiedot" "/tmp/data") =
      some "connection refused" := by decide
  have h1 : returnedError
      (NewDBSvc (dialFailAt 1 "connection refused") 2 "/tmp/tiedot" "/tmp/data") =
      some "connection refused" := by decide
  refine ⟨rfl, rfl, rfl, h0, h1, ?_⟩
  rintro ⟨rankOf, hr0, hr1⟩
  rw [h0] at hr0
  rw [h1] at hr1
  omega

/-- C7, amended: construction fails on the first dial failure.  For `totalRank ≥ 1` and
a rank `k < totalRank`, if the dials to ranks below `k` succeed and the dial to rank `k`
fails with error `e`, `NewDBSvc` returns that non-nil error `e` unchanged, with no rank
attached; the whole trace of the call is the dials to ranks `0, 1, .., k` in that order:
no rank above `k` is dialed, no version probe and no reconciliation call is made. -/
theorem NewDBSvc_first_dial_failure (env : Env) (totalRank : Int)
    (srvWorkingDir dataDir : String) (k : Nat) (e : String) (hN : 1 ≤ totalRank)
    (hk : (k : Int) < totalRank) (hok : ∀ j, j < k → env.dial j = none)
    (hbad : env.dial k = some e) :
    (∃ db, (NewDBSvc env totalRank srvWorkingDir dataDir).result = .returned (db, some e)) ∧
    (NewDBSvc env totalRank srvWorkingDir dataDir).trace =
      (List.range (k + 1)).map Event.dial := by
  have hnot : ¬ (totalRank < 0) := by omega
  have hf := dialLoop_fail env k totalRank.toNat 0
    ⟨⟨srvWorkingDir, dataDir, totalRank, List.replicate totalRank.toNat none, [],
      env.now, false⟩, []⟩ e
    (fun j _ h2 => hok j (by omega)) (by simpa using hbad) (by omega)
  obtain ⟨h2, h1⟩ := hf
  simp only [NewDBSvc, hnot, if_false]
  generalize dialLoop env totalRank.toNat 0
    ⟨⟨srvWorkingDir, dataDir, totalRank, List.replicate totalRank.toNat none, [],
      env.now, false⟩, []⟩ = r at h1 h2
  obtain ⟨w, err⟩ := r
  simp only at h1 h2
  subst h2
  simp only
  exact ⟨⟨_, rfl⟩, by simp [h1, List.range_eq_range']⟩

/-- C7 amended, at three partitions where the endpoint of rank 1 cannot be dialed:
ranks 0 and 1 are dialed, rank 2 is not. -/
theorem NewDBSvc_first_dial_failure_witness :
    (NewDBSvc dialFailEnv 3 "/tmp/tiedot" "/tmp/data").trace = [Event.dial 0, Event.dial 1] :=
  (NewDBSvc_first_dial_failure dialFailEnv 3 "/tmp/tiedot" "/tmp/data" 1
    "dial unix /tmp/tiedot/1: connect: no such file or directory" (by decide) (by decide)
    (fun j hj => by
      have : j = 0 := by omega
      subst this
      rfl) rfl).2

/-- C8 as stated fails: the freeze step reports a failure, the reconciliation succeeds,
and `Sync` returns nil. -/
theorem Sync_returns_nil_after_failed_freeze :
    freezeFailEnv.lockAllData = some "could not lock rank 0" ∧
    (Sync freezeFailEnv (coordinator 2)).result = .returned none :=
  ⟨rfl, by decide⟩

/-- C8, amended: if the freeze step reports a failure, `Sync` does not look at it.  It
goes on to `unloadAll` and `loadSchema(true)` and returns the reconciliation's result;
the freeze and then the coordinator lock are released before it returns, and a
subsequent `Sync` on the same coordinator acquires the lock and runs to its return. -/
theorem Sync_after_failed_freeze (env next : Env) (w : World) (e : String)
    (hlock : w.db.lockHeld = false) (_hfreeze : env.lockAllData = some e) :
    (Sync env w).result = .returned (env.loadSchema true (env.unloadAll w.db.schema).1).2 ∧
    (Sync env w).world.trace = w.trace ++ [Event.lock, Event.lockAllData, Event.unloadAll,
      Event.loadSchema true, Event.unlockAllData, Event.unlock] ∧
    (Sync env w).world.db.lockHeld = false ∧
    (∃ r, (Sync next (Sync env w).world).result = .returned r) ∧
    (Sync next (Sync env w).world).world.trace =
      (Sync env w).world.trace ++ [Event.lock, Event.lockAllData, Event.unloadAll,
        Event.loadSchema true, Event.unlockAllData, Event.unlock] := by
  have h1 := Sync_unlocked env w hlock
  have hl : (Sync env w).world.db.lockHeld = false := by rw [h1]
  have h2 := Sync_unlocked next (Sync env w).world hl
  refine ⟨by rw [h1], by rw [h1], hl, ⟨_, by rw [h2]⟩, by rw [h2]⟩

/-- C8 amended, at a cluster whose freeze step fails: the second `Sync` runs. -/
theorem Sync_after_failed_freeze_witness :
    (coordinator 2).db.lockHeld = false ∧
    freezeFailEnv.lockAllData = some "could not lock rank 0" ∧
    (Sync freezeFailEnv (coordinator 2)).world.db.lockHeld = false ∧
    ∃ r, (Sync quietEnv (Sync freezeFailEnv (coordinator 2)).world).result = .returned r :=
  have h := Sync_after_failed_freeze freezeFailEnv quietEnv (coordinator 2)
    "could not lock rank 0" rfl rfl
  ⟨rfl, rfl, h.2.2.1, h.2.2.2.1⟩

/-- C9: `Sync` performs its steps in a fixed order with guaranteed release.  On an
unlocked coordinator, whatever the create-mode reconciliation returns, the events of one
`Sync` call are exactly: lock, `lockAllData`, `unloadAll`, `loadSchema(true)`,
`unlockAllData`, unlock; the freeze is released before the lock, each once; the mutex
is free afterwards; and the value `Sync` returns is the reconciliation's result. -/
theorem Sync_fixed_order (env : Env) (w : World) (hlock : w.db.lockHeld = false) :
    (Sync env w).world.trace = w.trace ++ [Event.lock, Event.lockAllData, Event.unloadAll,
      Event.loadSchema true, Event.unlockAllData, Event.unlock] ∧
    (Sync env w).world.db.lockHeld = false ∧
    (Sync env w).result =
      .returned (env.loadSchema true (env.unloadAll w.db.schema).1).2 := by
  rw [Sync_unlocked env w hlock]
  exact ⟨rfl, rfl, rfl⟩

/-- C9, at a cluster whose create-mode reconciliation fails: same six events, and the
reconciliation's error is what `Sync` returns. -/
theorem Sync_fixed_order_witness :
    (Sync { quietEnv with loadSchema := fun _ s => (s, some "index missing") }
      (coordinator 2)).world.trace =
      [Event.lock, Event.lockAllData, Event.unloadAll, Event.loadSchema true,
        Event.unlockAllData, Event.unlock] ∧
    (Sync { quietEnv with loadSchema := fun _ s => (s, some "index missing") }
      (coordinator 2)).result = .returned (some "index missing") :=
  have h := Sync_fixed_order { quietEnv with loadSchema := fun _ s => (s, some "index missing") }
    (coordinator 2) rfl
  ⟨h.1, h.2.2⟩

/-- C10: `Sync` and `Shutdown` are mutually exclusive on one coordinator.  Take a `Sync`
call on one thread and a `Shutdown` call on another, on an unlocked coordinator over
`N` live connections.  In every complete run that the mutex allows, the events of one
call all come before the events of the other: the call that locks second performs
nothing before the first call's `unlock`. -/
theorem Sync_Shutdown_serialized (envSync envShutdown : Env) (N : Nat)
    (wSync wShutdown : World)
    (hlockSync : wSync.db.lockHeld = false) (htraceSync : wSync.trace = [])
    (hdata : wShutdown.db.data = liveData N) (hlock : wShutdown.db.lockHeld = false)
    (htrace : wShutdown.trace = []) (s : List (Bool × Event))
    (hs : validSchedule false (Sync envSync wSync).world.trace
      (Shutdown envShutdown wShutdown).world.trace s = true) :
    s = onThread false (Sync envSync wSync).world.trace ++
          onThread true (Shutdown envShutdown wShutdown).world.trace ∨
    s = onThread true (Shutdown envShutdown wShutdown).world.trace ++
          onThread false (Sync envSync wSync).world.trace := by
  obtain ⟨-, -, logs, hlogs, htr⟩ := Shutdown_live envShutdown N wShutdown hdata hlock
  have hsync : (Sync envSync wSync).world.trace =
      Event.lock :: ([Event.lockAllData, Event.unloadAll, Event.loadSchema true,
        Event.unlockAllData] ++ [Event.unlock]) := by
    rw [Sync_unlocked envSync wSync hlockSync, htraceSync]
    rfl
  have hshut : (Shutdown envShutdown wShutdown).world.trace =
      Event.lock :: ((((List.range N).map fun k => Event.call k "DataSvc.Shutdown") ++ logs)
        ++ [Event.unlock]) := by
    rw [htr, htrace]
    simp
  rw [hsync, hshut] at hs ⊢
  apply validSchedule_serial _ _ s _ _ hs
  · decide
  · intro hm
    rcases List.mem_append.mp hm with h | h
    · obtain ⟨j, -, hj⟩ := List.mem_map.mp h
      cases hj
    · obtain ⟨m, hm'⟩ := hlogs _ h
      cases hm'

/-- C10, at two partitions: the run in which `Sync` goes first is allowed by the mutex
and is one of the two serial orders. -/
theorem Sync_Shutdown_serialized_witness :
    validSchedule false (Sync quietEnv (coordinator 2)).world.trace
      (Shutdown mixedEnv (coordinator 2)).world.trace
      (onThread false (Sync quietEnv (coordinator 2)).world.trace ++
        onThread true (Shutdown mixedEnv (coordinator 2)).world.trace) = true ∧
    (onThread false (Sync quietEnv (coordinator 2)).world.trace ++
        onThread true (Shutdown mixedEnv (coordinator 2)).world.trace =
      onThread false (Sync quietEnv (coordinator 2)).world.trace ++
        onThread true (Shutdown mixedEnv (coordinator 2)).world.trace ∨
     onThread false (Sync quietEnv (coordinator 2)).world.trace ++
        onThread true (Shutdown mixedEnv (coordinator 2)).world.trace =
      onThread true (Shutdown mixedEnv (coordinator 2)).world.trace ++
        onThread false (Sync quietEnv (coordinator 2)).world.trace) :=
  ⟨by decide,
    Sync_Shutdown_serialized quietEnv mixedEnv 2 (coordinator 2) (coordinator 2) rfl rfl rfl
      rfl rfl _ (by decide)⟩

end dbsvc
